import Mathlib

/-!
Verification of the match-scoring core of the Tennis-app-score repository.

The definitions below are a shallow embedding of the TypeScript sources:
* the shared data model comes from `src/types/scoring.types.ts`;
* namespace `Tennis` embeds the advantage-scoring engine
  (`src/features/scoring/engine/tennis.ts`);
* namespace `Pickleball` embeds the rally/side-out engine
  (`src/features/scoring/engine/pickleball.ts`);
* the undo coordinator and state derivation come from
  `src/features/scoring/hooks/useScoring.ts`.

JavaScript numbers are modelled as `Int` (all arithmetic in the engines is
exact integer arithmetic), array indexing as `List.get?` (an out-of-range
access, which would fault at the subsequent property access in JS, is an
`Except.error`), and the `throw` in tiebreak scoring as an `Except.error`
with the thrown message.  The erased TypeScript cast
`state.currentGame as ...GameState` is modelled by matching on the
`GameState` sum at the point where the game value is first used.
-/

inductive Team : Type where
  | one
  | two
deriving DecidableEq, Repr

/-- `t === 1 ? 2 : 1`, the side opposite to `t`. -/
def otherTeam : Team → Team
  | Team.one => Team.two
  | Team.two => Team.one

structure TennisGameState where
  team1Points : String
  team2Points : String
deriving DecidableEq, Repr

structure PickleballGameState where
  team1Points : Int
  team2Points : Int
  serverNumber : Int
deriving DecidableEq, Repr

inductive GameState : Type where
  | tennis (g : TennisGameState)
  | pickleball (g : PickleballGameState)
deriving DecidableEq, Repr

structure TiebreakScore where
  team1 : Int
  team2 : Int
deriving DecidableEq, Repr

structure SetState where
  setNumber : Int
  team1Games : Int
  team2Games : Int
  isTiebreak : Bool
  tiebreakScore : Option TiebreakScore
  winner : Option Team
deriving DecidableEq, Repr

structure ScoringConfig where
  sport : String
  setsToWin : Int
  gamesPerSet : Int
  tiebreakAt : Int
  finalSetTiebreak : Bool
  finalSetTiebreakPoints : Int
  advantageScoring : Bool
  pointsPerGame : Option Int
  winByTwo : Bool
  rallyScoring : Bool
deriving DecidableEq, Repr

structure MatchState where
  fixtureId : String
  config : ScoringConfig
  sets : List SetState
  currentSetIndex : Nat
  currentGame : GameState
  servingTeam : Team
  matchWinner : Option Team
  isComplete : Bool
deriving DecidableEq, Repr

/-- A score event as the engines see it: only the carried state snapshot. -/
structure ScoreEvent where
  scoreSnapshot : MatchState
deriving DecidableEq, Repr

def TENNIS_STANDARD : ScoringConfig :=
  { sport := "tennis"
    setsToWin := 2
    gamesPerSet := 6
    tiebreakAt := 6
    finalSetTiebreak := true
    finalSetTiebreakPoints := 10
    advantageScoring := true
    pointsPerGame := none
    winByTwo := true
    rallyScoring := false }

def PICKLEBALL_SIDEOUT : ScoringConfig :=
  { sport := "pickleball"
    setsToWin := 2
    gamesPerSet := 1
    tiebreakAt := 0
    finalSetTiebreak := false
    finalSetTiebreakPoints := 0
    advantageScoring := false
    pointsPerGame := some 11
    winByTwo := true
    rallyScoring := false }

/-- `sets.filter(s => s.winner === t).length` as an integer. -/
def setsWonBy (sets : List SetState) (t : Team) : Int :=
  ((sets.filter (fun s => decide (s.winner = some t))).length : Int)

namespace Tennis

def createInitialSet (setNumber : Int) : SetState :=
  { setNumber := setNumber
    team1Games := 0
    team2Games := 0
    isTiebreak := false
    tiebreakScore := none
    winner := none }

def createInitialGame : TennisGameState :=
  { team1Points := "0", team2Points := "0" }

def TENNIS_POINTS : List String := ["0", "15", "30", "40"]

/-- `indexOf` then step one label forward; not-found and the last label
return the input unchanged. -/
def getNextPoint (current : String) : String :=
  let index := TENNIS_POINTS.indexOf current
  if TENNIS_POINTS.length - 1 ≤ index then current
  else TENNIS_POINTS.getD (index + 1) current

/-- `game[scoringKey]` for `scoringKey = team1Points / team2Points`. -/
def pointsOf (game : TennisGameState) (t : Team) : String :=
  match t with
  | Team.one => game.team1Points
  | Team.two => game.team2Points

/-- `{ ...game, [scoringKey]: p }`. -/
def withPointsOf (game : TennisGameState) (t : Team) (p : String) : TennisGameState :=
  match t with
  | Team.one => { game with team1Points := p }
  | Team.two => { game with team2Points := p }

structure RegularPointResult where
  newGame : TennisGameState
  gameWon : Option Team
deriving DecidableEq, Repr

def scoreRegularPoint (game : TennisGameState) (scoringTeam : Team)
    (advantageScoring : Bool) : RegularPointResult :=
  let scoringPoints := pointsOf game scoringTeam
  let otherPoints := pointsOf game (otherTeam scoringTeam)
  if scoringPoints = "40" ∧ otherPoints = "40" then
    if advantageScoring then
      { newGame := withPointsOf game scoringTeam "AD", gameWon := none }
    else
      { newGame := createInitialGame, gameWon := some scoringTeam }
  else if scoringPoints = "AD" then
    { newGame := createInitialGame, gameWon := some scoringTeam }
  else if otherPoints = "AD" then
    { newGame := { team1Points := "40", team2Points := "40" }, gameWon := none }
  else if scoringPoints = "40" then
    { newGame := createInitialGame, gameWon := some scoringTeam }
  else
    { newGame := withPointsOf game scoringTeam (getNextPoint scoringPoints), gameWon := none }

/-- `tiebreakScore[scoringKey]`. -/
def tallyOf (ts : TiebreakScore) (t : Team) : Int :=
  match t with
  | Team.one => ts.team1
  | Team.two => ts.team2

/-- `{ ...tiebreakScore, [scoringKey]: v }`. -/
def withTallyOf (ts : TiebreakScore) (t : Team) (v : Int) : TiebreakScore :=
  match t with
  | Team.one => { ts with team1 := v }
  | Team.two => { ts with team2 := v }

structure TiebreakPointResult where
  newSet : SetState
  setWon : Option Team
deriving DecidableEq, Repr

def scoreTiebreakPoint (set : SetState) (scoringTeam : Team) (config : ScoringConfig) :
    Except String TiebreakPointResult :=
  match set.tiebreakScore with
  | none => Except.error "Tiebreak score not initialized"
  | some tiebreakScore =>
    let newScore := withTallyOf tiebreakScore scoringTeam (tallyOf tiebreakScore scoringTeam + 1)
    let scoringPoints := tallyOf newScore scoringTeam
    let otherPoints := tallyOf newScore (otherTeam scoringTeam)
    let isFinalSet := set.setNumber = config.setsToWin * 2 - 1
    let tiebreakTarget :=
      if isFinalSet ∧ config.finalSetTiebreak then config.finalSetTiebreakPoints else 7
    if tiebreakTarget ≤ scoringPoints ∧ 2 ≤ scoringPoints - otherPoints then
      Except.ok
        { newSet :=
            { set with
              tiebreakScore := some newScore
              team1Games := set.team1Games + (if scoringTeam = Team.one then 1 else 0)
              team2Games := set.team2Games + (if scoringTeam = Team.two then 1 else 0)
              winner := some scoringTeam }
          setWon := some scoringTeam }
    else
      Except.ok { newSet := { set with tiebreakScore := some newScore }, setWon := none }

def checkSetWon (set : SetState) (config : ScoringConfig) : Option Team :=
  if set.isTiebreak then none
  else if config.gamesPerSet ≤ set.team1Games ∧ 2 ≤ set.team1Games - set.team2Games then
    some Team.one
  else if config.gamesPerSet ≤ set.team2Games ∧ 2 ≤ set.team2Games - set.team1Games then
    some Team.two
  else if set.team1Games = config.gamesPerSet + 1 ∧ set.team2Games = config.gamesPerSet - 1 then
    some Team.one
  else if set.team2Games = config.gamesPerSet + 1 ∧ set.team1Games = config.gamesPerSet - 1 then
    some Team.two
  else none

def shouldStartTiebreak (set : SetState) (config : ScoringConfig) : Bool :=
  decide (set.team1Games = config.tiebreakAt) &&
  decide (set.team2Games = config.tiebreakAt) &&
  !set.isTiebreak

def updateServerAfterGame (currentServer : Team) : Team :=
  if currentServer = Team.one then Team.two else Team.one

def updateServerInTiebreak (currentServer : Team) (totalPoints : Int) : Team :=
  if totalPoints = 0 then currentServer
  else if totalPoints = 1 then (if currentServer = Team.one then Team.two else Team.one)
  else if (totalPoints - 1) % 2 = 0 then (if currentServer = Team.one then Team.two else Team.one)
  else currentServer

def scorePoint (state : MatchState) (scoringTeam : Team) : Except String MatchState :=
  if state.isComplete then Except.ok state
  else
    match state.sets.get? state.currentSetIndex with
    | none => Except.error "current set is undefined"
    | some currentSet =>
      if currentSet.isTiebreak then
        match scoreTiebreakPoint currentSet scoringTeam state.config with
        | Except.error e => Except.error e
        | Except.ok r =>
          let newSet := r.newSet
          let totalTiebreakPoints :=
            match newSet.tiebreakScore with
            | some ts => ts.team1 + ts.team2
            | none => 0
          match r.setWon with
          | some setWon =>
            let team1Sets := setsWonBy state.sets Team.one + (if setWon = Team.one then 1 else 0)
            let team2Sets := setsWonBy state.sets Team.two + (if setWon = Team.two then 1 else 0)
            if team1Sets = state.config.setsToWin ∨ team2Sets = state.config.setsToWin then
              Except.ok
                { state with
                  sets := state.sets.set state.currentSetIndex newSet
                  matchWinner := some setWon
                  isComplete := true }
            else
              Except.ok
                { state with
                  sets := state.sets.set state.currentSetIndex newSet ++
                    [createInitialSet ((state.currentSetIndex : Int) + 2)]
                  currentSetIndex := state.currentSetIndex + 1
                  currentGame := GameState.tennis createInitialGame
                  servingTeam := updateServerAfterGame state.servingTeam }
          | none =>
            Except.ok
              { state with
                sets := state.sets.set state.currentSetIndex newSet
                servingTeam := updateServerInTiebreak state.servingTeam totalTiebreakPoints }
      else
        match state.currentGame with
        | GameState.pickleball _ => Except.error "current game is not a tennis game"
        | GameState.tennis game =>
          let r := scoreRegularPoint game scoringTeam state.config.advantageScoring
          match r.gameWon with
          | none => Except.ok { state with currentGame := GameState.tennis r.newGame }
          | some gameWon =>
            let updatedSet : SetState :=
              { currentSet with
                team1Games := currentSet.team1Games + (if gameWon = Team.one then 1 else 0)
                team2Games := currentSet.team2Games + (if gameWon = Team.two then 1 else 0) }
            if shouldStartTiebreak updatedSet state.config then
              Except.ok
                { state with
                  sets := state.sets.set state.currentSetIndex
                    { updatedSet with
                      isTiebreak := true
                      tiebreakScore := some { team1 := 0, team2 := 0 } }
                  currentGame := GameState.tennis createInitialGame
                  servingTeam := updateServerAfterGame state.servingTeam }
            else
              match checkSetWon updatedSet state.config with
              | some setWinner =>
                let finalSet : SetState := { updatedSet with winner := some setWinner }
                let team1Sets :=
                  setsWonBy state.sets Team.one + (if setWinner = Team.one then 1 else 0)
                let team2Sets :=
                  setsWonBy state.sets Team.two + (if setWinner = Team.two then 1 else 0)
                if team1Sets = state.config.setsToWin ∨ team2Sets = state.config.setsToWin then
                  Except.ok
                    { state with
                      sets := state.sets.set state.currentSetIndex finalSet
                      currentGame := GameState.tennis r.newGame
                      matchWinner := some setWinner
                      isComplete := true }
                else
                  Except.ok
                    { state with
                      sets := state.sets.set state.currentSetIndex finalSet ++
                        [createInitialSet ((state.currentSetIndex : Int) + 2)]
                      currentSetIndex := state.currentSetIndex + 1
                      currentGame := GameState.tennis createInitialGame
                      servingTeam := updateServerAfterGame state.servingTeam }
              | none =>
                Except.ok
                  { state with
                    sets := state.sets.set state.currentSetIndex updatedSet
                    currentGame := GameState.tennis r.newGame
                    servingTeam := updateServerAfterGame state.servingTeam }

def createInitialState (fixtureId : String) (config : ScoringConfig)
    (servingTeam : Team) : MatchState :=
  { fixtureId := fixtureId
    config := config
    sets := [createInitialSet 1]
    currentSetIndex := 0
    currentGame := GameState.tennis createInitialGame
    servingTeam := servingTeam
    matchWinner := none
    isComplete := false }

def undoLastPoint (state : MatchState) (events : List ScoreEvent) : MatchState :=
  match events.getLast? with
  | none => state
  | some previousEvent => previousEvent.scoreSnapshot

/-- States reachable from `createInitialState` by the tennis engine. -/
inductive Reachable : MatchState → Prop where
  | init (fixtureId : String) (config : ScoringConfig) (servingTeam : Team) :
      Reachable (createInitialState fixtureId config servingTeam)
  | step (s s' : MatchState) (t : Team) :
      Reachable s → scorePoint s t = Except.ok s' → Reachable s'

end Tennis

namespace Pickleball

def createInitialSet (setNumber : Int) : SetState :=
  { setNumber := setNumber
    team1Games := 0
    team2Games := 0
    isTiebreak := false
    tiebreakScore := none
    winner := none }

def createInitialGame : PickleballGameState :=
  { team1Points := 0, team2Points := 0, serverNumber := 1 }

/-- `config.pointsPerGame || 11` (JS `||`: both `undefined` and `0` fall
back to `11`). -/
def pointsToWin (config : ScoringConfig) : Int :=
  match config.pointsPerGame with
  | none => 11
  | some p => if p = 0 then 11 else p

/-- `game[scoringKey]`. -/
def pointsOf (game : PickleballGameState) (t : Team) : Int :=
  match t with
  | Team.one => game.team1Points
  | Team.two => game.team2Points

/-- `{ ...game, [scoringKey]: v }`. -/
def withPointsOf (game : PickleballGameState) (t : Team) (v : Int) : PickleballGameState :=
  match t with
  | Team.one => { game with team1Points := v }
  | Team.two => { game with team2Points := v }

def scorePoint (state : MatchState) (scoringTeam : Team) : Except String MatchState :=
  if state.isComplete then Except.ok state
  else
    match state.currentGame with
    | GameState.tennis _ => Except.error "current game is not a pickleball game"
    | GameState.pickleball game =>
      let config := state.config
      if config.rallyScoring = false ∧ scoringTeam ≠ state.servingTeam then
        let newServerNumber := if game.serverNumber = 1 then 2 else 1
        let newServingTeam :=
          if game.serverNumber = 1 then state.servingTeam else otherTeam state.servingTeam
        Except.ok
          { state with
            currentGame := GameState.pickleball { game with serverNumber := newServerNumber }
            servingTeam := newServingTeam }
      else
        let newPoints := pointsOf game scoringTeam + 1
        let otherPoints := pointsOf game (otherTeam scoringTeam)
        let hasEnoughPoints := pointsToWin config ≤ newPoints
        let hasRequiredLead :=
          if config.winByTwo then 2 ≤ newPoints - otherPoints else otherPoints < newPoints
        if hasEnoughPoints ∧ hasRequiredLead then
          match state.sets.get? state.currentSetIndex with
          | none => Except.error "current set is undefined"
          | some currentSet =>
            let updatedSet : SetState :=
              { currentSet with
                team1Games := currentSet.team1Games + (if scoringTeam = Team.one then 1 else 0)
                team2Games := currentSet.team2Games + (if scoringTeam = Team.two then 1 else 0)
                winner := some scoringTeam }
            let team1Games :=
              setsWonBy state.sets Team.one + (if scoringTeam = Team.one then 1 else 0)
            let team2Games :=
              setsWonBy state.sets Team.two + (if scoringTeam = Team.two then 1 else 0)
            if team1Games = state.config.setsToWin ∨ team2Games = state.config.setsToWin then
              Except.ok
                { state with
                  sets := state.sets.set state.currentSetIndex updatedSet
                  currentGame := GameState.pickleball (withPointsOf game scoringTeam newPoints)
                  matchWinner := some scoringTeam
                  isComplete := true }
            else
              Except.ok
                { state with
                  sets := state.sets.set state.currentSetIndex updatedSet ++
                    [createInitialSet ((state.currentSetIndex : Int) + 2)]
                  currentSetIndex := state.currentSetIndex + 1
                  currentGame := GameState.pickleball createInitialGame
                  servingTeam := otherTeam scoringTeam }
        else
          let newGame := withPointsOf game scoringTeam newPoints
          let newServingTeam := if config.rallyScoring then scoringTeam else state.servingTeam
          Except.ok
            { state with
              currentGame := GameState.pickleball newGame
              servingTeam := newServingTeam }

def createInitialState (fixtureId : String) (config : ScoringConfig)
    (servingTeam : Team) : MatchState :=
  { fixtureId := fixtureId
    config := config
    sets := [createInitialSet 1]
    currentSetIndex := 0
    currentGame := GameState.pickleball createInitialGame
    servingTeam := servingTeam
    matchWinner := none
    isComplete := false }

def undoLastPoint (state : MatchState) (events : List ScoreEvent) : MatchState :=
  match events.getLast? with
  | none => state
  | some previousEvent => previousEvent.scoreSnapshot

/-- States reachable from `createInitialState` by the pickleball engine. -/
inductive Reachable : MatchState → Prop where
  | init (fixtureId : String) (config : ScoringConfig) (servingTeam : Team) :
      Reachable (createInitialState fixtureId config servingTeam)
  | step (s s' : MatchState) (t : Team) :
      Reachable s → scorePoint s t = Except.ok s' → Reachable s'

end Pickleball

/-- The undo mutation of `useUndoPoint` in `useScoring.ts`: an empty
history throws; otherwise the tail event is deleted and the state to
restore is the snapshot of the second-to-last event (or nothing when only
one event existed).  The result is the remaining history and that
restored state. -/
def useUndoPoint (events : List ScoreEvent) :
    Except String (List ScoreEvent × Option MatchState) :=
  if events.length = 0 then Except.error "No events to undo"
  else
    let previousState :=
      if 1 < events.length then (events.get? (events.length - 2)).map ScoreEvent.scoreSnapshot
      else none
    Except.ok (events.dropLast, previousState)

/-- Current-state derivation of `useMatchState` in `useScoring.ts`: the
snapshot of the last event when any events exist, else the freshly
constructed initial state. -/
def buildMatchState (initialState : MatchState) (events : List ScoreEvent) : MatchState :=
  match events.getLast? with
  | some e => e.scoreSnapshot
  | none => initialState

/-- Concrete input used by a claim witness below. -/
def c3CompleteState : MatchState :=
  { Tennis.createInitialState "fixture-1" TENNIS_STANDARD Team.one with
    isComplete := true
    matchWinner := some Team.one }

/-- Concrete input used by a claim witness below. -/
def c10Config : ScoringConfig := { PICKLEBALL_SIDEOUT with pointsPerGame := none }

/-- Concrete input used by a claim witness below. -/
def c1PreState : MatchState := Tennis.createInitialState "fixture-1" TENNIS_STANDARD Team.one

/-- Concrete input used by a claim witness below. -/
def c1PostState : MatchState :=
  { c1PreState with currentGame := GameState.tennis { team1Points := "15", team2Points := "0" } }

/-- Concrete input used by a claim witness below. -/
def c6Set : SetState :=
  { setNumber := 1
    team1Games := 6
    team2Games := 6
    isTiebreak := true
    tiebreakScore := some { team1 := 6, team2 := 6 }
    winner := none }

/-- Concrete input used by a claim witness below. -/
def c7Set : SetState :=
  { setNumber := 1
    team1Games := 6
    team2Games := 6
    isTiebreak := true
    tiebreakScore := some { team1 := 0, team2 := 0 }
    winner := none }

/-- Concrete input used by a claim witness below. -/
def c7State : MatchState :=
  { fixtureId := "fixture-1"
    config := TENNIS_STANDARD
    sets := [c7Set]
    currentSetIndex := 0
    currentGame := GameState.tennis { team1Points := "0", team2Points := "0" }
    servingTeam := Team.one
    matchWinner := none
    isComplete := false }

/-- Concrete input used by a claim witness below. -/
def c7Result : Tennis.TiebreakPointResult :=
  { newSet := { c7Set with tiebreakScore := some { team1 := 1, team2 := 0 } }
    setWon := none }

namespace Tennis

/-- The transition `scorePoint s t` completes a game: outside a tiebreak,
the regular point ends the game; inside a tiebreak, the point ends the
set (the tiebreak counts as the deciding game of the set). -/
def gameCompletes (s : MatchState) (t : Team) : Bool :=
  match s.sets.get? s.currentSetIndex with
  | none => false
  | some cs =>
    if cs.isTiebreak then
      match scoreTiebreakPoint cs t s.config with
      | Except.ok r => decide (r.setWon ≠ none)
      | Except.error _ => false
    else
      match s.currentGame with
      | GameState.tennis g =>
        decide ((scoreRegularPoint g t s.config.advantageScoring).gameWon ≠ none)
      | GameState.pickleball _ => false

end Tennis

/-- Concrete input used by a claim witness below: one point from winning
the match (second set at 5-0, game at 40-0, first set already won). -/
def c4State : MatchState :=
  { fixtureId := "fixture-1"
    config := TENNIS_STANDARD
    sets :=
      [{ setNumber := 1
         team1Games := 6
         team2Games := 0
         isTiebreak := false
         tiebreakScore := none
         winner := some Team.one },
       { setNumber := 2
         team1Games := 5
         team2Games := 0
         isTiebreak := false
         tiebreakScore := none
         winner := none }]
    currentSetIndex := 1
    currentGame := GameState.tennis { team1Points := "40", team2Points := "0" }
    servingTeam := Team.one
    matchWinner := none
    isComplete := false }

/-- Concrete input used by a claim witness below: a mid-set game
completion (first set 0-0, game at 40-0). -/
def c4MidState : MatchState :=
  { Tennis.createInitialState "fixture-1" TENNIS_STANDARD Team.one with
    currentGame := GameState.tennis { team1Points := "40", team2Points := "0" } }

/-- Concrete input used by a claim witness below. -/
def c8State : MatchState :=
  Pickleball.createInitialState "fixture-1" PICKLEBALL_SIDEOUT Team.one

/-! ## Claim theorems -/

/-- C3: for every match state `s` with `s.isComplete = true` and every side
`t`, `scorePoint s t` returns `s` unchanged (an idempotent no-op, not an
error), in both the advantage-scoring (tennis) engine and the
rally/side-out (pickleball) engine. -/
theorem scorePoint_complete_noop (s : MatchState) (t : Team) (h : s.isComplete = true) :
    Tennis.scorePoint s t = Except.ok s ∧ Pickleball.scorePoint s t = Except.ok s := by
  constructor <;> simp [Tennis.scorePoint, Pickleball.scorePoint, h]

/-- Witness for C3 at a concrete completed state. -/
theorem scorePoint_complete_noop_witness :
    c3CompleteState.isComplete = true ∧
    (Tennis.scorePoint c3CompleteState Team.two = Except.ok c3CompleteState ∧
      Pickleball.scorePoint c3CompleteState Team.two = Except.ok c3CompleteState) :=
  ⟨rfl, scorePoint_complete_noop c3CompleteState Team.two rfl⟩

/-- C10: in the rally/side-out engine, when the policy has no
`pointsPerGame` value, the `pointsToWin` target used by the game-win check
of `scorePoint` is 11. -/
theorem pointsToWin_defaults_to_eleven (config : ScoringConfig)
    (h : config.pointsPerGame = none) : Pickleball.pointsToWin config = 11 := by
  simp [Pickleball.pointsToWin, h]

/-- Witness for C10 at a concrete policy with an absent `pointsPerGame`. -/
theorem pointsToWin_defaults_to_eleven_witness :
    c10Config.pointsPerGame = none ∧ Pickleball.pointsToWin c10Config = 11 :=
  ⟨rfl, pointsToWin_defaults_to_eleven c10Config rfl⟩

/-- C1 (code bug): the round-trip fails on the engine as written.  From the
fresh tennis state, `scorePoint` yields the post-score state; the engine
`undoLastPoint`, applied to the single-event history whose one event
carries that post-score snapshot, returns the post-score snapshot itself
(the snapshot of the last event), not the pre-score state, and the two
states differ. -/
theorem undoLastPoint_returns_post_score_snapshot :
    Tennis.scorePoint c1PreState Team.one = Except.ok c1PostState ∧
    Tennis.undoLastPoint c1PostState [{ scoreSnapshot := c1PostState }] = c1PostState ∧
    c1PostState ≠ c1PreState := by
  refine ⟨rfl, rfl, ?_⟩
  decide

/-- C2 counterexample: the undo mutation on an empty event history throws
("No events to undo") instead of being a no-op. -/
theorem useUndoPoint_empty_is_error :
    useUndoPoint [] = Except.error "No events to undo" := rfl

/-- C2 (amended): for a history with N ≥ 1 events the undo mutation
removes exactly the most recent event and the restored current state
(the last remaining snapshot, or the engine initial state when none
remain) equals the snapshot carried by event N-1 (the initial state when
N = 1); but undo of an empty history throws in the undo mutation, while it
is the engine-level `undoLastPoint` that returns the given state unchanged
on an empty history. -/
theorem useUndoPoint_restores_previous_snapshot (es : List ScoreEvent)
    (e1 e2 : ScoreEvent) (init s : MatchState) :
    useUndoPoint [e1] = Except.ok ([], none) ∧
    buildMatchState init [] = init ∧
    useUndoPoint (es ++ [e2, e1]) = Except.ok (es ++ [e2], some e2.scoreSnapshot) ∧
    buildMatchState init (es ++ [e2]) = e2.scoreSnapshot ∧
    Tennis.undoLastPoint s [] = s ∧ Pickleball.undoLastPoint s [] = s := by
  refine ⟨rfl, rfl, ?_, ?_, rfl, rfl⟩
  · have hsplit : es ++ [e2, e1] = (es ++ [e2]) ++ [e1] := by simp
    have hlen : (es ++ [e2, e1]).length = es.length + 2 := by simp
    have hget : (es ++ [e2, e1]).get? (es.length + 2 - 2) = some e2 := by
      have : (es ++ [e2, e1]).get? es.length = some e2 := by
        rw [List.get?_eq_getElem?, List.getElem?_append_right (Nat.le_refl _)]
        simp
      simpa using this
    have hdrop : (es ++ [e2, e1]).dropLast = es ++ [e2] := by
      rw [hsplit, List.dropLast_concat]
    simp [useUndoPoint, hlen, hget, hdrop, List.getElem_append_right]
  · simp [buildMatchState, List.getLast?_concat]

/-- C6: in the advantage-scoring engine, a tiebreak point increments the
scoring side's tally by one (leaving the opponent's tally unchanged), and
the scoring side wins the set exactly when its new tally has reached the
target — `finalSetTiebreakPoints` when this is the deciding set
(`setNumber = setsToWin * 2 - 1`) and the policy enables a final-set
super-tiebreak, else 7 — and leads the opponent by at least 2; otherwise
no side wins and play continues. -/
theorem scoreTiebreakPoint_win_iff (st : SetState) (ts : TiebreakScore) (t : Team)
    (config : ScoringConfig) (h : st.tiebreakScore = some ts) :
    ∃ r ns, Tennis.scoreTiebreakPoint st t config = Except.ok r ∧
      r.newSet.tiebreakScore = some ns ∧
      Tennis.tallyOf ns t = Tennis.tallyOf ts t + 1 ∧
      Tennis.tallyOf ns (otherTeam t) = Tennis.tallyOf ts (otherTeam t) ∧
      (r.setWon = some t ↔
        (if st.setNumber = config.setsToWin * 2 - 1 ∧ config.finalSetTiebreak then
            config.finalSetTiebreakPoints
          else 7) ≤ Tennis.tallyOf ns t ∧
        2 ≤ Tennis.tallyOf ns t - Tennis.tallyOf ns (otherTeam t)) ∧
      (r.setWon = none ∨ r.setWon = some t) := by
  have hsc : Tennis.tallyOf (Tennis.withTallyOf ts t (Tennis.tallyOf ts t + 1)) t
      = Tennis.tallyOf ts t + 1 := by cases t <;> rfl
  have hot : Tennis.tallyOf (Tennis.withTallyOf ts t (Tennis.tallyOf ts t + 1)) (otherTeam t)
      = Tennis.tallyOf ts (otherTeam t) := by cases t <;> rfl
  by_cases hC :
      (if st.setNumber = config.setsToWin * 2 - 1 ∧ config.finalSetTiebreak then
          config.finalSetTiebreakPoints
        else 7) ≤ Tennis.tallyOf (Tennis.withTallyOf ts t (Tennis.tallyOf ts t + 1)) t ∧
      2 ≤ Tennis.tallyOf (Tennis.withTallyOf ts t (Tennis.tallyOf ts t + 1)) t -
        Tennis.tallyOf (Tennis.withTallyOf ts t (Tennis.tallyOf ts t + 1)) (otherTeam t)
  · have heq : Tennis.scoreTiebreakPoint st t config = Except.ok
        { newSet :=
            { st with
              tiebreakScore := some (Tennis.withTallyOf ts t (Tennis.tallyOf ts t + 1))
              team1Games := st.team1Games + (if t = Team.one then 1 else 0)
              team2Games := st.team2Games + (if t = Team.two then 1 else 0)
              winner := some t }
          setWon := some t } := by
      simp only [Tennis.scoreTiebreakPoint, h]
      rw [if_pos hC]
    exact ⟨_, _, heq, rfl, hsc, hot, iff_of_true rfl hC, Or.inr rfl⟩
  · have heq : Tennis.scoreTiebreakPoint st t config = Except.ok
        { newSet :=
            { st with tiebreakScore := some (Tennis.withTallyOf ts t (Tennis.tallyOf ts t + 1)) }
          setWon := none } := by
      simp only [Tennis.scoreTiebreakPoint, h]
      rw [if_neg hC]
    exact ⟨_, _, heq, rfl, hsc, hot, iff_of_false (by simp) hC, Or.inl rfl⟩

/-- Witness for C6 at a concrete tied tiebreak (6-6): the point is not yet
a set win. -/
theorem scoreTiebreakPoint_win_iff_witness :
    c6Set.tiebreakScore = some { team1 := 6, team2 := 6 } ∧
    (∃ r ns, Tennis.scoreTiebreakPoint c6Set Team.one TENNIS_STANDARD = Except.ok r ∧
      r.newSet.tiebreakScore = some ns ∧
      Tennis.tallyOf ns Team.one = Tennis.tallyOf { team1 := 6, team2 := 6 } Team.one + 1 ∧
      Tennis.tallyOf ns (otherTeam Team.one) =
        Tennis.tallyOf { team1 := 6, team2 := 6 } (otherTeam Team.one) ∧
      (r.setWon = some Team.one ↔
        (if c6Set.setNumber = TENNIS_STANDARD.setsToWin * 2 - 1 ∧
            TENNIS_STANDARD.finalSetTiebreak then
            TENNIS_STANDARD.finalSetTiebreakPoints
          else 7) ≤ Tennis.tallyOf ns Team.one ∧
        2 ≤ Tennis.tallyOf ns Team.one - Tennis.tallyOf ns (otherTeam Team.one)) ∧
      (r.setWon = none ∨ r.setWon = some Team.one)) :=
  ⟨rfl, scoreTiebreakPoint_win_iff c6Set { team1 := 6, team2 := 6 } Team.one TENNIS_STANDARD rfl⟩

/-- Characterization of the tiebreak server schedule: the server flips
exactly after an odd number of played tiebreak points. -/
theorem updateServerInTiebreak_flip_iff_odd (serv : Team) (n : Int) :
    Tennis.updateServerInTiebreak serv n = if n % 2 = 1 then otherTeam serv else serv := by
  have hflip : (if serv = Team.one then Team.two else Team.one) = otherTeam serv := by
    cases serv <;> rfl
  unfold Tennis.updateServerInTiebreak
  simp only [hflip]
  split_ifs <;> first | rfl | omega

/-- Closed-form description of `scoreTiebreakPoint` on an initialized
tiebreak tally. -/
theorem scoreTiebreakPoint_spec (st : SetState) (ts : TiebreakScore) (t : Team)
    (config : ScoringConfig) (h : st.tiebreakScore = some ts) :
    Tennis.scoreTiebreakPoint st t config =
      (if (if st.setNumber = config.setsToWin * 2 - 1 ∧ config.finalSetTiebreak then
              config.finalSetTiebreakPoints
            else 7) ≤ Tennis.tallyOf (Tennis.withTallyOf ts t (Tennis.tallyOf ts t + 1)) t ∧
          2 ≤ Tennis.tallyOf (Tennis.withTallyOf ts t (Tennis.tallyOf ts t + 1)) t -
            Tennis.tallyOf (Tennis.withTallyOf ts t (Tennis.tallyOf ts t + 1)) (otherTeam t)
        then
          Except.ok
            { newSet :=
                { st with
                  tiebreakScore := some (Tennis.withTallyOf ts t (Tennis.tallyOf ts t + 1))
                  team1Games := st.team1Games + (if t = Team.one then 1 else 0)
                  team2Games := st.team2Games + (if t = Team.two then 1 else 0)
                  winner := some t }
              setWon := some t }
        else
          Except.ok
            { newSet :=
                { st with
                  tiebreakScore := some (Tennis.withTallyOf ts t (Tennis.tallyOf ts t + 1)) }
              setWon := none }) := by
  simp only [Tennis.scoreTiebreakPoint, h]

/-- In the continue branch the tiebreak result carries the incremented
tally. -/
theorem scoreTiebreakPoint_continue_score (st : SetState) (ts : TiebreakScore)
    (t : Team) (config : ScoringConfig) (r : Tennis.TiebreakPointResult)
    (hts : st.tiebreakScore = some ts)
    (hr : Tennis.scoreTiebreakPoint st t config = Except.ok r) :
    r.newSet.tiebreakScore = some (Tennis.withTallyOf ts t (Tennis.tallyOf ts t + 1)) := by
  rw [scoreTiebreakPoint_spec st ts t config hts] at hr
  split at hr <;> split at hr <;> injection hr with h2 <;> rw [← h2]

/-- Sum of the tallies after an increment. -/
theorem withTallyOf_sum (ts : TiebreakScore) (t : Team) :
    (Tennis.withTallyOf ts t (Tennis.tallyOf ts t + 1)).team1 +
      (Tennis.withTallyOf ts t (Tennis.tallyOf ts t + 1)).team2 =
    ts.team1 + ts.team2 + 1 := by
  cases t <;> simp [Tennis.withTallyOf, Tennis.tallyOf] <;> omega

/-- C7: during a tiebreak in the advantage-scoring engine, for a point
that does not end the set, the side serving the next point flips exactly
when the number of tiebreak points played so far (after this point,
`ts.team1 + ts.team2 + 1`) is odd: the starting server serves only point
1, and thereafter the serve alternates every 2 points (points 2k and 2k+1
share a server).  The schedule function itself satisfies the same
characterization for every count. -/
theorem scorePoint_tiebreak_server_rotation (s : MatchState) (cs : SetState)
    (ts : TiebreakScore) (t : Team) (r : Tennis.TiebreakPointResult)
    (hc : s.isComplete = false)
    (hset : s.sets.get? s.currentSetIndex = some cs)
    (htb : cs.isTiebreak = true)
    (hts : cs.tiebreakScore = some ts)
    (hr : Tennis.scoreTiebreakPoint cs t s.config = Except.ok r)
    (hw : r.setWon = none) :
    (∃ s', Tennis.scorePoint s t = Except.ok s' ∧
      s'.servingTeam =
        (if (ts.team1 + ts.team2 + 1) % 2 = 1 then otherTeam s.servingTeam
          else s.servingTeam)) ∧
    (∀ (serv : Team) (n : Int),
      Tennis.updateServerInTiebreak serv n = if n % 2 = 1 then otherTeam serv else serv) := by
  refine ⟨?_, updateServerInTiebreak_flip_iff_odd⟩
  have hns := scoreTiebreakPoint_continue_score cs ts t s.config r hts hr
  have heq : Tennis.scorePoint s t = Except.ok
      { s with
        sets := s.sets.set s.currentSetIndex r.newSet
        servingTeam :=
          Tennis.updateServerInTiebreak s.servingTeam (ts.team1 + ts.team2 + 1) } := by
    simp only [Tennis.scorePoint, hc, hset, htb, hr, hw, hns, withTallyOf_sum]
    simp
  refine ⟨_, heq, ?_⟩
  exact updateServerInTiebreak_flip_iff_odd s.servingTeam (ts.team1 + ts.team2 + 1)

/-- Witness for C7: the first tiebreak point moves the serve away from the
starting server. -/
theorem scorePoint_tiebreak_server_rotation_witness :
    c7State.isComplete = false ∧
    ((∃ s', Tennis.scorePoint c7State Team.one = Except.ok s' ∧
        s'.servingTeam =
          (if ((0 : Int) + 0 + 1) % 2 = 1 then otherTeam c7State.servingTeam
            else c7State.servingTeam)) ∧
      (∀ (serv : Team) (n : Int),
        Tennis.updateServerInTiebreak serv n = if n % 2 = 1 then otherTeam serv else serv)) :=
  ⟨rfl, scorePoint_tiebreak_server_rotation c7State c7Set { team1 := 0, team2 := 0 } Team.one
    c7Result rfl rfl rfl rfl rfl rfl⟩

/-- C8: in the rally/side-out engine with side-out scoring
(`rallyScoring = false`), when the scoring side is not the serving side,
`scorePoint` awards no point — the set history and both point tallies are
unchanged, as is completion — and only rotates the serve: server slot 1
becomes slot 2 on the same serving side, and server slot 2 passes the
serve to the opposing side with the slot reset to 1. -/
theorem scorePoint_sideout_passes_serve (s : MatchState) (g : PickleballGameState) (t : Team)
    (hc : s.isComplete = false)
    (hg : s.currentGame = GameState.pickleball g)
    (hrally : s.config.rallyScoring = false)
    (ht : t ≠ s.servingTeam) :
    ∃ s', Pickleball.scorePoint s t = Except.ok s' ∧
      s'.sets = s.sets ∧
      s'.currentGame = GameState.pickleball
        { g with serverNumber := if g.serverNumber = 1 then 2 else 1 } ∧
      (g.serverNumber = 1 → s'.servingTeam = s.servingTeam) ∧
      (g.serverNumber = 2 → s'.servingTeam = otherTeam s.servingTeam) ∧
      s'.matchWinner = s.matchWinner ∧
      s'.isComplete = s.isComplete := by
  have heq : Pickleball.scorePoint s t = Except.ok
      { s with
        currentGame := GameState.pickleball
          { g with serverNumber := if g.serverNumber = 1 then 2 else 1 }
        servingTeam :=
          if g.serverNumber = 1 then s.servingTeam else otherTeam s.servingTeam } := by
    simp only [Pickleball.scorePoint, hc, hg]
    rw [if_neg (by simp), if_pos ⟨hrally, ht⟩]
  refine ⟨_, heq, rfl, rfl, ?_, ?_, rfl, rfl⟩
  · intro h1
    simp [h1]
  · intro h2
    have h1 : ¬g.serverNumber = 1 := by rw [h2]; decide
    simp [h1]

/-- Witness for C8: from the fresh side-out pickleball state, the receiving
side winning the rally moves the serve to server slot 2 without scoring. -/
theorem scorePoint_sideout_passes_serve_witness :
    c8State.isComplete = false ∧ Team.two ≠ c8State.servingTeam ∧
    (∃ s', Pickleball.scorePoint c8State Team.two = Except.ok s' ∧
      s'.sets = c8State.sets ∧
      s'.currentGame = GameState.pickleball
        { Pickleball.createInitialGame with
          serverNumber :=
            if Pickleball.createInitialGame.serverNumber = 1 then 2 else 1 } ∧
      (Pickleball.createInitialGame.serverNumber = 1 →
        s'.servingTeam = c8State.servingTeam) ∧
      (Pickleball.createInitialGame.serverNumber = 2 →
        s'.servingTeam = otherTeam c8State.servingTeam) ∧
      s'.matchWinner = c8State.matchWinner ∧
      s'.isComplete = c8State.isComplete) :=
  ⟨rfl, by decide,
    scorePoint_sideout_passes_serve c8State Pickleball.createInitialGame Team.two rfl rfl rfl
      (by decide)⟩

/-- C4 counterexample: at `c4State` the point completes a game (and the
match), yet the serving side of the returned state equals the input
serving side instead of its opposite. -/
theorem scorePoint_match_end_keeps_server :
    Tennis.gameCompletes c4State Team.one = true ∧
    c4State.isComplete = false ∧
    Except.map MatchState.servingTeam (Tennis.scorePoint c4State Team.one) =
      Except.ok c4State.servingTeam ∧
    Except.map MatchState.isComplete (Tennis.scorePoint c4State Team.one) =
      Except.ok true :=
  ⟨rfl, rfl, rfl, rfl⟩

/-- C4 (amended): in the advantage-scoring engine, for every `scorePoint`
transition in which a game completes — including a game that ends a set —
the serving side in the returned state is the opposite of the input
serving side, except when that game completes the match: the
match-completing transition leaves the serving side unchanged. -/
theorem scorePoint_rotates_server_after_game (s : MatchState) (t : Team)
    (hc : s.isComplete = false) (hg : Tennis.gameCompletes s t = true) :
    ∃ s', Tennis.scorePoint s t = Except.ok s' ∧
      s'.servingTeam = (if s'.isComplete = true then s.servingTeam
        else Tennis.updateServerAfterGame s.servingTeam) := by
  unfold Tennis.gameCompletes at hg
  cases hget : s.sets.get? s.currentSetIndex with
  | none => rw [hget] at hg; simp at hg
  | some cs =>
    rw [hget] at hg
    dsimp only at hg
    by_cases htb : cs.isTiebreak = true
    · rw [if_pos htb] at hg
      cases hr : Tennis.scoreTiebreakPoint cs t s.config with
      | error e => rw [hr] at hg; simp at hg
      | ok r =>
        rw [hr] at hg
        simp only [decide_eq_true_eq] at hg
        cases hsw : r.setWon with
        | none => exact absurd hsw hg
        | some w =>
          simp only [Tennis.scorePoint, hc, hget, htb, hr, hsw, eq_self_iff_true, if_true,
            Bool.false_eq_true, if_false]
          generalize (if w = Team.one then (1 : Int) else 0) = a1
          generalize (if w = Team.two then (1 : Int) else 0) = a2
          split
          · exact ⟨_, rfl, by simp⟩
          · exact ⟨_, rfl, by simp [hc]⟩
    · rw [if_neg htb] at hg
      cases hcg : s.currentGame with
      | pickleball g => rw [hcg] at hg; simp at hg
      | tennis g =>
        rw [hcg] at hg
        simp only [decide_eq_true_eq] at hg
        cases hgw : (Tennis.scoreRegularPoint g t s.config.advantageScoring).gameWon with
        | none => exact absurd hgw hg
        | some w =>
          simp only [Tennis.scorePoint, hc, hget, htb, hcg, hgw, eq_self_iff_true, if_true,
            Bool.false_eq_true, if_false]
          generalize (if w = Team.one then (1 : Int) else 0) = a1
          generalize (if w = Team.two then (1 : Int) else 0) = a2
          split
          · exact ⟨_, rfl, by simp [hc]⟩
          · split
            · rename_i sw hsw2
              generalize (if sw = Team.one then (1 : Int) else 0) = b1
              generalize (if sw = Team.two then (1 : Int) else 0) = b2
              split
              · exact ⟨_, rfl, by simp⟩
              · exact ⟨_, rfl, by simp [hc]⟩
            · exact ⟨_, rfl, by simp [hc]⟩

/-- Witness for C4 (amended) at a mid-set game completion. -/
theorem scorePoint_rotates_server_after_game_witness :
    c4MidState.isComplete = false ∧ Tennis.gameCompletes c4MidState Team.one = true ∧
    (∃ s', Tennis.scorePoint c4MidState Team.one = Except.ok s' ∧
      s'.servingTeam = (if s'.isComplete = true then c4MidState.servingTeam
        else Tennis.updateServerAfterGame c4MidState.servingTeam)) :=
  ⟨rfl, rfl, scorePoint_rotates_server_after_game c4MidState Team.one rfl rfl⟩

/-- One tennis `scorePoint` step preserves the winner-iff-complete
invariant. -/
theorem tennis_step_winner_iff (s s' : MatchState) (t : Team)
    (h : Tennis.scorePoint s t = Except.ok s')
    (ih : s.matchWinner ≠ none ↔ s.isComplete = true) :
    s'.matchWinner ≠ none ↔ s'.isComplete = true := by
  unfold Tennis.scorePoint at h
  cases hcb : s.isComplete with
  | true =>
    rw [hcb] at h
    simp only [eq_self_iff_true, if_true] at h
    injection h with h2
    subst h2
    exact ih
  | false =>
    have hwn : s.matchWinner = none := by
      cases hw : s.matchWinner with
      | none => rfl
      | some w =>
        have h3 := ih.mp (by simp [hw])
        rw [hcb] at h3
        cases h3
    rw [hcb] at h
    simp only [Bool.false_eq_true, if_false] at h
    repeat' split at h
    all_goals
      first
        | (injection h with h2; subst h2; simp [hwn, hcb])
        | simp at h

/-- One pickleball `scorePoint` step preserves the winner-iff-complete
invariant. -/
theorem pickleball_step_winner_iff (s s' : MatchState) (t : Team)
    (h : Pickleball.scorePoint s t = Except.ok s')
    (ih : s.matchWinner ≠ none ↔ s.isComplete = true) :
    s'.matchWinner ≠ none ↔ s'.isComplete = true := by
  unfold Pickleball.scorePoint at h
  cases hcb : s.isComplete with
  | true =>
    rw [hcb] at h
    simp only [eq_self_iff_true, if_true] at h
    injection h with h2
    subst h2
    exact ih
  | false =>
    have hwn : s.matchWinner = none := by
      cases hw : s.matchWinner with
      | none => rfl
      | some w =>
        have h3 := ih.mp (by simp [hw])
        rw [hcb] at h3
        cases h3
    rw [hcb] at h
    simp only [Bool.false_eq_true, if_false] at h
    repeat' split at h
    all_goals
      first
        | (injection h with h2; subst h2; simp [hwn, hcb])
        | simp at h

/-- C5: for every state reachable from `createInitialState` by any
sequence of `scorePoint` calls (in either engine), `matchWinner` is
non-null exactly when `isComplete` is true. -/
theorem reachable_winner_iff_complete (s : MatchState)
    (h : Tennis.Reachable s ∨ Pickleball.Reachable s) :
    s.matchWinner ≠ none ↔ s.isComplete = true := by
  cases h with
  | inl h =>
    induction h with
    | init fixtureId config servingTeam => simp [Tennis.createInitialState]
    | step s1 s2 t hr hstep ih => exact tennis_step_winner_iff s1 s2 t hstep ih
  | inr h =>
    induction h with
    | init fixtureId config servingTeam => simp [Pickleball.createInitialState]
    | step s1 s2 t hr hstep ih => exact pickleball_step_winner_iff s1 s2 t hstep ih

/-- Witness for C5 at the reachable initial tennis state. -/
theorem reachable_winner_iff_complete_witness :
    ((Tennis.createInitialState "fixture-1" TENNIS_STANDARD Team.one).matchWinner ≠ none ↔
      (Tennis.createInitialState "fixture-1" TENNIS_STANDARD Team.one).isComplete = true) :=
  reachable_winner_iff_complete _
    (Or.inl (Tennis.Reachable.init "fixture-1" TENNIS_STANDARD Team.one))

/-- A successful tiebreak point always stores a tally on the new set. -/
theorem scoreTiebreakPoint_ok_tally (cs : SetState) (t : Team) (cfg : ScoringConfig)
    (r : Tennis.TiebreakPointResult)
    (hr : Tennis.scoreTiebreakPoint cs t cfg = Except.ok r) :
    r.newSet.tiebreakScore ≠ none := by
  unfold Tennis.scoreTiebreakPoint at hr
  cases hts : cs.tiebreakScore with
  | none => rw [hts] at hr; cases hr
  | some ts =>
    rw [hts] at hr
    dsimp only at hr
    split at hr <;> split at hr <;> (injection hr with h2; rw [← h2]; simp)

/-- One tennis `scorePoint` step preserves the tiebreak-tally invariant. -/
theorem tennis_step_tiebreak_tally (s s' : MatchState) (t : Team)
    (h : Tennis.scorePoint s t = Except.ok s')
    (ih : ∀ st ∈ s.sets, st.isTiebreak = true → st.tiebreakScore ≠ none) :
    ∀ st ∈ s'.sets, st.isTiebreak = true → st.tiebreakScore ≠ none := by
  unfold Tennis.scorePoint at h
  cases hcb : s.isComplete with
  | true =>
    rw [hcb] at h
    simp only [eq_self_iff_true, if_true] at h
    injection h with h2
    subst h2
    exact ih
  | false =>
    rw [hcb] at h
    simp only [Bool.false_eq_true, if_false] at h
    cases hget : s.sets.get? s.currentSetIndex with
    | none => rw [hget] at h; cases h
    | some cs =>
      rw [hget] at h
      dsimp only at h
      by_cases htb : cs.isTiebreak = true
      · rw [if_pos htb] at h
        cases hr : Tennis.scoreTiebreakPoint cs t s.config with
        | error e => rw [hr] at h; cases h
        | ok r =>
          rw [hr] at h
          dsimp only at h
          have hnewts : r.newSet.tiebreakScore ≠ none :=
            scoreTiebreakPoint_ok_tally cs t s.config r hr
          cases hsw : r.setWon with
          | some w =>
            rw [hsw] at h
            dsimp only at h
            by_cases hwin :
                (setsWonBy s.sets Team.one + if w = Team.one then (1 : Int) else 0) =
                  s.config.setsToWin ∨
                (setsWonBy s.sets Team.two + if w = Team.two then (1 : Int) else 0) =
                  s.config.setsToWin
            · rw [if_pos hwin] at h
              injection h with h2
              subst h2
              intro st hmem htbs
              rcases List.mem_or_eq_of_mem_set hmem with hm | he
              · exact ih st hm htbs
              · rw [he]; exact hnewts
            · rw [if_neg hwin] at h
              injection h with h2
              subst h2
              intro st hmem htbs
              rcases List.mem_append.mp hmem with hm | hm
              · rcases List.mem_or_eq_of_mem_set hm with hm2 | he
                · exact ih st hm2 htbs
                · rw [he]; exact hnewts
              · rw [List.mem_singleton.mp hm] at htbs
                cases htbs
          | none =>
            rw [hsw] at h
            dsimp only at h
            injection h with h2
            subst h2
            intro st hmem htbs
            rcases List.mem_or_eq_of_mem_set hmem with hm | he
            · exact ih st hm htbs
            · rw [he]; exact hnewts
      · rw [if_neg htb] at h
        have htbf : cs.isTiebreak = false := by revert htb; cases cs.isTiebreak <;> simp
        cases hcg : s.currentGame with
        | pickleball g => rw [hcg] at h; cases h
        | tennis g =>
          rw [hcg] at h
          dsimp only at h
          cases hgw : (Tennis.scoreRegularPoint g t s.config.advantageScoring).gameWon with
          | none =>
            rw [hgw] at h
            dsimp only at h
            injection h with h2
            subst h2
            exact ih
          | some w =>
            rw [hgw] at h
            dsimp only at h
            by_cases hstb :
                Tennis.shouldStartTiebreak
                  { cs with
                    team1Games := cs.team1Games + if w = Team.one then (1 : Int) else 0
                    team2Games := cs.team2Games + if w = Team.two then (1 : Int) else 0 }
                  s.config = true
            · rw [if_pos hstb] at h
              injection h with h2
              subst h2
              intro st hmem htbs
              rcases List.mem_or_eq_of_mem_set hmem with hm | he
              · exact ih st hm htbs
              · rw [he]; simp
            · rw [if_neg hstb] at h
              cases hcsw :
                  Tennis.checkSetWon
                    { cs with
                      team1Games := cs.team1Games + if w = Team.one then (1 : Int) else 0
                      team2Games := cs.team2Games + if w = Team.two then (1 : Int) else 0 }
                    s.config with
              | some sw =>
                rw [hcsw] at h
                dsimp only at h
                by_cases hwin :
                    (setsWonBy s.sets Team.one + if sw = Team.one then (1 : Int) else 0) =
                      s.config.setsToWin ∨
                    (setsWonBy s.sets Team.two + if sw = Team.two then (1 : Int) else 0) =
                      s.config.setsToWin
                · rw [if_pos hwin] at h
                  injection h with h2
                  subst h2
                  intro st hmem htbs
                  rcases List.mem_or_eq_of_mem_set hmem with hm | he
                  · exact ih st hm htbs
                  · rw [he] at htbs
                    rw [htbf] at htbs
                    cases htbs
                · rw [if_neg hwin] at h
                  injection h with h2
                  subst h2
                  intro st hmem htbs
                  rcases List.mem_append.mp hmem with hm | hm
                  · rcases List.mem_or_eq_of_mem_set hm with hm2 | he
                    · exact ih st hm2 htbs
                    · rw [he] at htbs
                      rw [htbf] at htbs
                      cases htbs
                  · rw [List.mem_singleton.mp hm] at htbs
                    cases htbs
              | none =>
                rw [hcsw] at h
                dsimp only at h
                injection h with h2
                subst h2
                intro st hmem htbs
                rcases List.mem_or_eq_of_mem_set hmem with hm | he
                · exact ih st hm htbs
                · rw [he] at htbs
                  rw [htbf] at htbs
                  cases htbs

/-- C9: for every state reachable from `createInitialState` by
`scorePoint` calls in the advantage-scoring engine, every set with
`isTiebreak = true` has a non-null tiebreak tally, and consequently the
fatal "Tiebreak score not initialized" failure branch of tiebreak scoring
is unreachable from such states. -/
theorem reachable_tiebreak_tally_initialized (s : MatchState) (h : Tennis.Reachable s) :
    (∀ st ∈ s.sets, st.isTiebreak = true → st.tiebreakScore ≠ none) ∧
    ∀ t, Tennis.scorePoint s t ≠ Except.error "Tiebreak score not initialized" := by
  have hinv : ∀ st ∈ s.sets, st.isTiebreak = true → st.tiebreakScore ≠ none := by
    induction h with
    | init fixtureId config servingTeam =>
      intro st hmem htbs
      rw [List.mem_singleton.mp hmem] at htbs
      cases htbs
    | step s1 s2 t hr hstep ih => exact tennis_step_tiebreak_tally s1 s2 t hstep ih
  refine ⟨hinv, ?_⟩
  intro t herr
  unfold Tennis.scorePoint at herr
  cases hcb : s.isComplete with
  | true =>
    rw [hcb] at herr
    simp only [eq_self_iff_true, if_true] at herr
    cases herr
  | false =>
    rw [hcb] at herr
    simp only [Bool.false_eq_true, if_false] at herr
    cases hget : s.sets.get? s.currentSetIndex with
    | none =>
      rw [hget] at herr
      dsimp only at herr
      simp at herr
    | some cs =>
      rw [hget] at herr
      dsimp only at herr
      by_cases htb : cs.isTiebreak = true
      · rw [if_pos htb] at herr
        cases hr : Tennis.scoreTiebreakPoint cs t s.config with
        | ok r =>
          rw [hr] at herr
          dsimp only at herr
          cases hsw : r.setWon with
          | none => rw [hsw] at herr; dsimp only at herr; cases herr
          | some w =>
            rw [hsw] at herr
            dsimp only at herr
            by_cases hwin :
                (setsWonBy s.sets Team.one + if w = Team.one then (1 : Int) else 0) =
                  s.config.setsToWin ∨
                (setsWonBy s.sets Team.two + if w = Team.two then (1 : Int) else 0) =
                  s.config.setsToWin
            · rw [if_pos hwin] at herr; cases herr
            · rw [if_neg hwin] at herr; cases herr
        | error e =>
          have hcs : cs ∈ s.sets := List.get?_mem hget
          have hns := hinv cs hcs htb
          cases hts : cs.tiebreakScore with
          | none => exact hns hts
          | some ts =>
            rw [scoreTiebreakPoint_spec cs ts t s.config hts] at hr
            split at hr <;> split at hr <;> cases hr
      · rw [if_neg htb] at herr
        cases hcg : s.currentGame with
        | pickleball g =>
          rw [hcg] at herr
          dsimp only at herr
          simp at herr
        | tennis g =>
          rw [hcg] at herr
          dsimp only at herr
          cases hgw : (Tennis.scoreRegularPoint g t s.config.advantageScoring).gameWon with
          | none => rw [hgw] at herr; dsimp only at herr; cases herr
          | some w =>
            rw [hgw] at herr
            dsimp only at herr
            by_cases hstb :
                Tennis.shouldStartTiebreak
                  { cs with
                    team1Games := cs.team1Games + if w = Team.one then (1 : Int) else 0
                    team2Games := cs.team2Games + if w = Team.two then (1 : Int) else 0 }
                  s.config = true
            · rw [if_pos hstb] at herr; cases herr
            · rw [if_neg hstb] at herr
              cases hcsw :
                  Tennis.checkSetWon
                    { cs with
                      team1Games := cs.team1Games + if w = Team.one then (1 : Int) else 0
                      team2Games := cs.team2Games + if w = Team.two then (1 : Int) else 0 }
                    s.config with
              | some sw =>
                rw [hcsw] at herr
                dsimp only at herr
                by_cases hwin :
                    (setsWonBy s.sets Team.one + if sw = Team.one then (1 : Int) else 0) =
                      s.config.setsToWin ∨
                    (setsWonBy s.sets Team.two + if sw = Team.two then (1 : Int) else 0) =
                      s.config.setsToWin
                · rw [if_pos hwin] at herr; cases herr
                · rw [if_neg hwin] at herr; cases herr
              | none => rw [hcsw] at herr; dsimp only at herr; cases herr

/-- Witness for C9 at the reachable initial tennis state. -/
theorem reachable_tiebreak_tally_initialized_witness :
    (∀ st ∈ (Tennis.createInitialState "fixture-1" TENNIS_STANDARD Team.one).sets,
        st.isTiebreak = true → st.tiebreakScore ≠ none) ∧
    ∀ t, Tennis.scorePoint (Tennis.createInitialState "fixture-1" TENNIS_STANDARD Team.one) t ≠
      Except.error "Tiebreak score not initialized" :=
  reachable_tiebreak_tally_initialized _
    (Tennis.Reachable.init "fixture-1" TENNIS_STANDARD Team.one)
